import Mathlib

/-!
Verification development for the yuhsien0411/ssss trading engine.

Shallow embedding of the decision logic of the repository, translated
from the Python sources:
  - src/trading_bot.py           (grid strategy, percent take-profit variant)
  - src/trading_bot_tick.py      (grid strategy, tick take-profit variant)
  - src/hedge/hedge_mode_ext.py  (cross-venue hedge bot, Extended + Lighter)
  - src/hedge/hedge_mode_grvt.py (cross-venue hedge bot, GRVT + Lighter)
  - src/exchanges/lighter.py     (Lighter exchange adapter)

Python `Decimal` amounts and prices are modelled as `ℚ`; Python strings
used as enums (sides `"buy"`/`"sell"`, order statuses `"OPEN"`, ...)
are modelled as `String`.  Network reads that a code path consumes are
passed in explicitly (as arguments or as `ℕ`-indexed streams, one entry
per retry/iteration), so every definition is a pure, executable
translation of the corresponding Python control flow.
-/

namespace Ssss

/-- An order as seen on the exchange active-order list
(side, remaining size, price); from the OrderInfo rows that
`get_active_orders` returns. -/
structure ActiveOrder where
  side : String
  size : ℚ
  price : ℚ
deriving DecidableEq, Repr

/-- Snapshot of one order as returned by `get_finalized_order_from_api`
or `get_order_info` (src/exchanges/lighter.py): the two fields the
lifecycle engine consumes after a cancel. -/
structure FillSource where
  filled_size : ℚ
  price : ℚ
deriving DecidableEq, Repr

/-- Order placement request issued by the bot: side, size, optional
limit price (`none` for market orders), reduce-only flag and whether it
is a market order. -/
structure PlaceReq where
  side : String
  size : ℚ
  price : Option ℚ
  reduce_only : Bool
  is_market : Bool
deriving DecidableEq, Repr

/-! ### `TradingBot._calculate_wait_time` (src/trading_bot.py lines 175-190)

In `src/trading_bot.py` the final `return 0` is indented inside the
hasattr block for current_position, so when the bot has no
`current_position` attribute (it is never assigned anywhere in that
file) the function falls off the end and returns Python `None`.
`none` models that fall-through.  The tick variant
(src/trading_bot_tick.py lines 181-196) has `return 0` at function
level and never returns `None`. -/

/-- Function `TradingBot._calculate_wait_time` of src/trading_bot.py.
Argument has_current_position is the hasattr check for current_position and
`current_position` its value (Python truthiness of a `Decimal` is
`≠ 0`). -/
def calculate_wait_time (active_close_count : ℕ) (max_orders : ℕ)
    (has_current_position : Bool) (current_position quantity : ℚ) : Option ℚ :=
  if active_close_count ≥ max_orders then some 1
  else if has_current_position ∧ current_position ≠ 0 then
    if |current_position| > quantity * max_orders then some 5
    else some 0
  else none

/-- Function `TradingBot._calculate_wait_time` of src/trading_bot_tick.py
(same logic but with `return 0` correctly placed at function level). -/
def calculate_wait_time_tick (active_close_count : ℕ) (max_orders : ℕ)
    (has_current_position : Bool) (current_position quantity : ℚ) : ℚ :=
  if active_close_count ≥ max_orders then 1
  else if has_current_position ∧ current_position ≠ 0 then
    if |current_position| > quantity * max_orders then 5
    else 0
  else 0

/-- Result of evaluating a Python expression that may raise. -/
inductive PyResult (α : Type) where
  | ok (a : α)
  | typeError
deriving DecidableEq, Repr

/-- Comparison performed by the main loop, wait_time greater than zero
(src/trading_bot.py line 1037): comparing Python `None` with `0`
raises `TypeError`. -/
def wait_time_gt_zero : Option ℚ → PyResult Bool
  | none => .typeError
  | some w => .ok (decide (w > 0))

/-! ### Grid main-loop tick dispatch (src/trading_bot.py run, lines 996-1073)

One iteration of the `while not self.shutdown_requested` loop, up to the
point where the reconciler is (or is not) reached.  `mismatch_detected`
is always `None` (`_log_status_periodically` has no return statement),
so the `if not mismatch_detected` branch is always taken. -/

/-- How one grid main-loop iteration of src/trading_bot.py exits
before reaching the open-order phase. -/
inductive TickDispatch where
  /-- stop price triggered: notification + graceful shutdown. -/
  | shutdownStop
  /-- pause price triggered: sleep 5 s, next iteration. -/
  | pauseSleep
  /-- Case `wait_time > 0`: sleep `wait_time`, next iteration
  (no reconcile performed on this path). -/
  | waitSleep (w : ℚ)
  /-- Case where `wait_time` was Python None; comparing None with 0 raises TypeError,
  which propagates out of the iteration to the handler around the
  whole loop (graceful shutdown + re-raise). -/
  | raisedTypeError
  /-- Case where the iteration reaches `_reconcile_close_coverage`. -/
  | reconcilePhase
deriving DecidableEq, Repr

/-- The observable inputs of one grid main-loop iteration. -/
structure TickInput where
  /-- Fresh `get_active_orders` read (empty list when the API errored). -/
  active_orders : List ActiveOrder
  /-- Field `config.close_order_side` (buy-direction bot closes with sell). -/
  close_order_side : String
  max_orders : ℕ
  quantity : ℚ
  has_current_position : Bool
  current_position : ℚ
  stop_trading : Bool
  pause_trading : Bool
deriving Repr

/-- The close-side filter of the main loop (lines 1009-1015). -/
def active_close_of (t : TickInput) : List ActiveOrder :=
  t.active_orders.filter (fun o => o.side == t.close_order_side)

/-- One grid main-loop iteration of src/trading_bot.py, up to the
reconcile call: stop/pause guards, then the wait-time check. -/
def grid_tick_dispatch (t : TickInput) : TickDispatch :=
  if t.stop_trading then .shutdownStop
  else if t.pause_trading then .pauseSleep
  else
    match wait_time_gt_zero (calculate_wait_time (active_close_of t).length
        t.max_orders t.has_current_position t.current_position t.quantity) with
    | .typeError => .raisedTypeError
    | .ok true =>
        .waitSleep ((calculate_wait_time (active_close_of t).length
          t.max_orders t.has_current_position t.current_position t.quantity).getD 0)
    | .ok false => .reconcilePhase

/-- Predicate recording that `_reconcile_close_coverage` is invoked by the main loop only on the
`reconcilePhase` branch (src/trading_bot.py line 1043 sits after the
stop/pause/wait checks). -/
def tick_reconcile_attempted (t : TickInput) : Bool :=
  grid_tick_dispatch t == .reconcilePhase

/-- Sum of the sizes of the active orders on `close_side`
(src/trading_bot.py lines 622-626). -/
def sum_close_sizes (orders : List ActiveOrder) (close_side : String) : ℚ :=
  (orders.filter (fun o => o.side == close_side)).foldl (fun acc o => acc + o.size) 0

/-! ### `LighterClient.get_account_positions` (src/exchanges/lighter.py 983-1003) -/

/-- One entry of the positions list the Lighter account API returns:
market id, sign (1 long, -1 short) and unsigned amount. -/
structure LighterApiPosition where
  market_id : ℤ
  sign : ℤ
  position : ℚ
deriving DecidableEq, Repr

/-- Lines 990-998: scan positions for the current market and apply the
sign convention; `Decimal(0)` when no entry matches. -/
def find_signed_position : List LighterApiPosition → ℤ → ℚ
  | [], _ => 0
  | p :: ps, contract_id =>
      if p.market_id = contract_id then
        (if p.sign = -1 then -p.position else p.position)
      else find_signed_position ps contract_id

/-- Function `LighterClient.get_account_positions`: the positions fetch
(`_fetch_positions_with_retry`) either returns a list or raises; the
`except` clause at lines 1001-1003 returns `Decimal(0)`.  No cached
value is consulted anywhere in the function. -/
def get_account_positions (fetch : Except String (List LighterApiPosition))
    (contract_id : ℤ) : ℚ :=
  match fetch with
  | .ok positions => find_signed_position positions contract_id
  | .error _ => 0

/-- Modelled from the spec (for comparison only, not from the source):
"API error returns last cached value; only a successful refresh updates
the cache" — the adapter would keep the last successfully fetched
position and return it when the fetch fails. -/
def get_account_positions_spec (fetch : Except String (List LighterApiPosition))
    (contract_id : ℤ) (cached : ℚ) : ℚ :=
  match fetch with
  | .ok positions => find_signed_position positions contract_id
  | .error _ => cached

/-! ### Client order id generation (src/exchanges/lighter.py 454-456, 675-677)

`client_order_index = int(time.time() * 1000) % 1000000`. -/

/-- Generator of the Lighter adapter client order ids, as a function of
the wall-clock time in milliseconds. -/
def client_order_index (time_ms : ℕ) : ℕ :=
  time_ms % 1000000

/-! ### The post-cancel wait loops (`should_wait`)

src/trading_bot.py lines 356-381 (non-strict comparison, no iteration
cap) and src/trading_bot_tick.py lines 576-635 (strict comparison,
`wait_count < max_wait_count = 6` cap). -/

/-- Function `should_wait` of src/trading_bot.py `_handle_order_result`:
non-strict comparisons (`<=` / `>=`). -/
def should_wait (direction : String) (new_order_price order_result_price : ℚ) : Bool :=
  if direction == "buy" then decide (new_order_price ≤ order_result_price)
  else if direction == "sell" then decide (new_order_price ≥ order_result_price)
  else false

/-- Function `should_wait` of src/trading_bot_tick.py `_handle_order_result`:
strict comparisons (`<` / `>`), per the source comment
"Strict <, not <=". -/
def should_wait_tick (direction : String) (new_order_price order_result_price : ℚ) : Bool :=
  if direction == "buy" then decide (new_order_price < order_result_price)
  else if direction == "sell" then decide (new_order_price > order_result_price)
  else false

/-- Lines 369-381 of src/trading_bot.py: the wait loop has no iteration
bound; `pct_wait_running prices statuses n = true` states that the
loop condition held at every check `0, …, n`, i.e. the loop is still
running after `n + 1` iterations.  `prices k` is the fresh
`get_order_price` read and `statuses k` the order status read before
iteration `k`. -/
def pct_wait_running (direction : String) (orig_price : ℚ)
    (prices : ℕ → ℚ) (statuses : ℕ → String) : ℕ → Bool
  | 0 => should_wait direction (prices 0) orig_price && (statuses 0 == "OPEN")
  | n + 1 => pct_wait_running direction orig_price prices statuses n &&
      (should_wait direction (prices (n + 1)) orig_price && (statuses (n + 1) == "OPEN"))

/-- Lines 594-632 of src/trading_bot_tick.py: the capped wait loop.
`fully_filled k` models the in-body break when the refreshed status is
FILLED/PARTIALLY_FILLED with `filled_size` within 0.01 of the target.
Returns the number of 5-second wait iterations performed; the loop
condition requires `wait_count < 6`. -/
def tick_wait_aux (direction : String) (orig_price : ℚ)
    (prices : ℕ → ℚ) (statuses : ℕ → String) (fully_filled : ℕ → Bool) :
    ℕ → ℕ → ℕ
  | k, 0 => k
  | k, fuel + 1 =>
      if should_wait_tick direction (prices k) orig_price && (statuses k == "OPEN") then
        if fully_filled k then k + 1
        else tick_wait_aux direction orig_price prices statuses fully_filled (k + 1) fuel
      else k

/-- Number of wait iterations the tick-variant loop performs
(`max_wait_count = 6`). -/
def tick_wait_count (direction : String) (orig_price : ℚ)
    (prices : ℕ → ℚ) (statuses : ℕ → String) (fully_filled : ℕ → Bool) : ℕ :=
  tick_wait_aux direction orig_price prices statuses fully_filled 0 6

/-! ### Post-cancel fill reconciliation (src/trading_bot.py lines 399-440,
src/trading_bot_tick.py lines 681-714)

After cancelling a still-open order (lighter path), the engine
determines the filled amount from, in order: the finalized-order REST
endpoint, up to three `get_order_info` REST reads, the WebSocket
`current_order` cache, and the partial-fill rescue cache recorded
during polling (`last_polled_filled_size`). -/

/-- Test of the pattern `x and x.filled_size > 0`. -/
def fill_positive : Option FillSource → Bool
  | some f => decide (f.filled_size > 0)
  | none => false

/-- The `for api_retry in range(3)` loop (lines 410-419): each pass
assigns `order_info` and breaks on a positive fill.  Returns the
breaking source (if any) together with the final value of the
`order_info` variable. -/
def api_retry_loop (a1 a2 a3 : Option FillSource) :
    Option FillSource × Option FillSource :=
  if fill_positive a1 then (a1, a1)
  else if fill_positive a2 then (a2, a2)
  else if fill_positive a3 then (a3, a3)
  else (none, a3)

/-- The resolved execution of a cancelled open order: amount and price
the TP placement will use. -/
structure ResolvedFill where
  amount : ℚ
  price : ℚ
deriving DecidableEq, Repr

/-- Lines 399-440 of src/trading_bot.py: resolve the filled amount and
execution price after a cancel.  Source priority: finalized endpoint,
then three `get_order_info` attempts, then the WebSocket cache
(`ws_filled`), then the polling rescue cache (`rescue_cache`); the
price comes from the finalized endpoint, else from the final
`order_info` value when present, else from the original order price. -/
def resolve_filled_after_cancel (finalized a1 a2 a3 : Option FillSource)
    (ws_filled rescue_cache orig_price : ℚ) : ResolvedFill :=
  if fill_positive finalized then
    -- `order_info` stays None on this path, so the later price-adjust
    -- block (lines 436-440) keeps the finalized price.
    { amount := (finalized.getD ⟨0, 0⟩).filled_size,
      price := (finalized.getD ⟨0, 0⟩).price }
  else
    let r := api_retry_loop a1 a2 a3
    -- line 423: fall back to the WebSocket cache when all three REST
    -- reads reported zero.
    let amt0 : ℚ := match r.1 with
      | some f => f.filled_size
      | none => ws_filled
    -- lines 427-428: rescue cache when still zero.
    let amt1 : ℚ := if amt0 = 0 ∧ rescue_cache > 0 then rescue_cache else amt0
    -- lines 433-440: when a fill was detected, prefer the price of the
    -- final `order_info` value when one exists.
    let price : ℚ :=
      if amt1 > 0 then
        match r.2 with
        | some o => o.price
        | none => orig_price
      else orig_price
    { amount := amt1, price := price }

/-! ### Partial-fill TP ladder (src/trading_bot.py lines 495-585)

Pricing: `sell: bid * (1 - k*tp%)`, `buy: ask * (1 + k*tp%)` with the
BBO refreshed on each of the five attempts; after five failures, a
reduce-only market order for the same amount.  The duplicate-check
block at lines 503-530 always falls through on this path: it reads the
local variable `close_price`, which is unassigned in the partial-fill
branch, and the resulting UnboundLocalError is swallowed by its
`except Exception: pass`. -/

/-- Function `_compute_price_for_attempt` (lines 499-502). -/
def compute_price_for_attempt (side : String) (k : ℕ) (bid ask tp_pct : ℚ) : ℚ :=
  if side == "sell" then bid * (1 - tp_pct / 100 * k)
  else ask * (1 + tp_pct / 100 * k)

/-- The attempt loop of lines 532-585: attempts `k, k+1, …` while fuel
lasts; each attempt places a reduce-only post-only close for exactly
`amount`; stops at the first success; after exhausting the attempts,
the market fallback (lines 568-585) fires when `amount > 0`. -/
def partial_ladder_aux (amount : ℚ) (close_side : String) (tp : ℚ)
    (bid ask : ℕ → ℚ) (place_success : ℕ → Bool) : ℕ → ℕ → List PlaceReq
  | _, 0 => if amount ≤ 0 then [] else [⟨close_side, amount, none, true, true⟩]
  | k, fuel + 1 =>
      let req : PlaceReq :=
        ⟨close_side, amount, some (compute_price_for_attempt close_side k (bid k) (ask k) tp),
          true, false⟩
      if place_success k then [req]
      else req :: partial_ladder_aux amount close_side tp bid ask place_success (k + 1) fuel

/-- All placement requests the partial-fill close path issues
(`max_retries = 5`, attempts numbered from 1). -/
def partial_fill_close_requests (amount : ℚ) (close_side : String) (tp : ℚ)
    (bid ask : ℕ → ℚ) (place_success : ℕ → Bool) : List PlaceReq :=
  partial_ladder_aux amount close_side tp bid ask place_success 1 5

/-! ### Lighter order book mirror (src/hedge/hedge_mode_ext.py)

State and message handling of `handle_lighter_ws` (lines 339-475) with
`update_lighter_order_book` (245-263), `validate_order_book_offset`
(265-271), `validate_order_book_integrity` (273-281) and
`get_lighter_best_levels` (283-298).  A Python dict price → size is an
association list. -/

/-- One side of the order book: price → size. -/
abbrev BookSide := List (ℚ × ℚ)

/-- Dict assignment `book[side][price] = size`. -/
def set_level : BookSide → ℚ → ℚ → BookSide
  | [], p, sz => [(p, sz)]
  | (q, s) :: rest, p, sz =>
      if q = p then (p, sz) :: rest else (q, s) :: set_level rest p sz

/-- Dict removal `book[side].pop(price, None)`. -/
def remove_level : BookSide → ℚ → BookSide
  | [], _ => []
  | (q, s) :: rest, p => if q = p then rest else (q, s) :: remove_level rest p

/-- Function `update_lighter_order_book` (lines 245-263): zero or
negative size removes the level, positive size sets it.  Both wire
formats (`[price, size]` arrays and `{price, size}` objects) parse to a
price/size pair. -/
def update_lighter_order_book (side_book : BookSide) (levels : List (ℚ × ℚ)) : BookSide :=
  levels.foldl
    (fun acc l => if l.2 > 0 then set_level acc l.1 l.2 else remove_level acc l.1)
    side_book

/-- The mirrored Lighter order book state held by the hedge bot. -/
structure LighterBook where
  bids : BookSide
  asks : BookSide
  offset : ℤ
  snapshot_loaded : Bool
  sequence_gap : Bool
  best_bid : Option ℚ
  best_ask : Option ℚ
deriving DecidableEq, Repr

/-- Function `reset_lighter_order_book` (lines 234-243). -/
def reset_lighter_order_book : LighterBook :=
  { bids := [], asks := [], offset := 0, snapshot_loaded := false,
    sequence_gap := false, best_bid := none, best_ask := none }

/-- Function `validate_order_book_offset` (lines 265-271): false when
`new_offset <= current`. -/
def validate_order_book_offset (book : LighterBook) (new_offset : ℤ) : Bool :=
  decide (new_offset > book.offset)

/-- Function `validate_order_book_integrity` (lines 273-281): false when
any price or size on either side is `<= 0`.  The function checks
nothing else; in particular it does not compare best bid and best
ask. -/
def validate_order_book_integrity (book : LighterBook) : Bool :=
  (book.bids ++ book.asks).all (fun l => decide (l.1 > 0) && decide (l.2 > 0))

/-- Max of the bid keys (lines 288-291). -/
def best_bid_of (bids : BookSide) : Option ℚ := (bids.map Prod.fst).max?

/-- Min of the ask keys (lines 293-296). -/
def best_ask_of (asks : BookSide) : Option ℚ := (asks.map Prod.fst).min?

/-- One parsed WebSocket message relevant to the book mirror:
`subscribed/order_book` snapshots, `update/order_book` deltas (offset
is absent when the payload lacks the key), and pings. -/
inductive WsMessage where
  | snapshot (offset : Option ℤ) (bids asks : List (ℚ × ℚ))
  | delta (offset : Option ℤ) (bids asks : List (ℚ × ℚ))
  | ping
deriving DecidableEq, Repr

/-- What the message loop does next: keep reading, or break out of the
message loop — the outer connect loop then calls
`reset_lighter_order_book` and re-subscribes, which discards the book
and requests a fresh snapshot. -/
inductive WsAction where
  | keep
  | resubscribe
deriving DecidableEq, Repr

/-- One step of the message handling in `handle_lighter_ws`
(lines 388-461).  Snapshot: clear both sides, record the offset when
present, apply the levels, set `snapshot_loaded` (lines 389-415).
Delta with the snapshot loaded: skip when the offset key is missing
(420-422); on a failed offset validation set `sequence_gap` and break
(427-429); otherwise apply the levels — the recorded `offset` is not
advanced — then break when the integrity check fails (436-438), else
recompute and store the best levels (440-447).  Delta before the
snapshot: ignored (459-461). -/
def handle_ws_message (st : LighterBook) (msg : WsMessage) : LighterBook × WsAction :=
  match msg with
  | .ping => (st, .keep)
  | .snapshot offset bids asks =>
      ({ st with
          bids := update_lighter_order_book [] bids,
          asks := update_lighter_order_book [] asks,
          offset := offset.getD st.offset,
          snapshot_loaded := true }, .keep)
  | .delta offset bids asks =>
      if st.snapshot_loaded then
        match offset with
        | none => (st, .keep)
        | some new_offset =>
            if validate_order_book_offset st new_offset then
              let st1 := { st with
                bids := update_lighter_order_book st.bids bids,
                asks := update_lighter_order_book st.asks asks }
              if validate_order_book_integrity st1 then
                ({ st1 with
                    best_bid := (best_bid_of st1.bids).elim st1.best_bid some,
                    best_ask := (best_ask_of st1.asks).elim st1.best_ask some }, .keep)
              else (st1, .resubscribe)
            else ({ st with sequence_gap := true }, .resubscribe)
      else (st, .keep)

/-- The state the mirror is left in after a message once the break is
accounted for: a `resubscribe` break lands in the next outer-loop
iteration, which resets the book before reconnecting (line 348). -/
def effective_next (st : LighterBook) (msg : WsMessage) : LighterBook :=
  match handle_ws_message st msg with
  | (st1, .keep) => st1
  | (_, .resubscribe) => reset_lighter_order_book

/-! ### Hedge-bot position checks (src/hedge/hedge_mode_ext.py lines
1108-1123, src/hedge/hedge_mode_grvt.py lines 1486-1497)

The Extended+Lighter trading loop checks
`abs(extended_position + lighter_position) > 0.2` at the top of each
iteration and breaks out of the loop (halting trading) when it holds;
the loop body contains no corrective-order code of any kind, so the
entry step never issues an order.  The GRVT variant at step 3 compares
the mismatch against `0.01` and calls `sync_positions`, which only
re-reads the two positions from the APIs and stores them (lines
318-352) — it places no order either. -/

/-- The iteration-entry check of the Extended+Lighter trading loop
(hedge_mode_ext.py line 1110). -/
def ext_position_gate (extended_position lighter_position : ℚ) : Bool :=
  decide (|extended_position + lighter_position| > 1/5)

/-- What the trading loop does at iteration entry. -/
structure IterEntry where
  halt : Bool
  corrective_order : Option PlaceReq
deriving DecidableEq, Repr

/-- Iteration entry of the Extended+Lighter trading loop: break when
the gate fires; no corrective order exists on any path of the loop
body (lines 1108-1205). -/
def ext_trading_loop_entry (extended_position lighter_position : ℚ) : IterEntry :=
  { halt := ext_position_gate extended_position lighter_position,
    corrective_order := none }

/-- The step-3 mismatch check of the GRVT variant
(hedge_mode_grvt.py lines 1490-1491). -/
def grvt_step3_mismatch (grvt_position lighter_position : ℚ) : Bool :=
  decide (|grvt_position + lighter_position| > 1/100)

/-- What the GRVT step-3 check does. -/
structure GrvtStep3 where
  sync_triggered : Bool
  corrective_order : Option PlaceReq
deriving DecidableEq, Repr

/-- Step 3 of the GRVT trading loop: when the mismatch check fires,
`sync_positions` is called (a read-only refresh of the two cached
positions); no order is placed on either branch (lines 1489-1497,
318-352). -/
def grvt_step3_action (grvt_position lighter_position : ℚ) : GrvtStep3 :=
  { sync_triggered := grvt_step3_mismatch grvt_position lighter_position,
    corrective_order := none }

/-- Modelled from the spec (not from the source, which has no such
tolerance): the XHB invariant tolerance `ε = 0.001 × quantity`. -/
def spec_hedge_epsilon (quantity : ℚ) : ℚ := quantity / 1000

/-! ### `TradingBot._reconcile_close_coverage` (src/trading_bot.py lines 604-858)

The reconciler: fresh position read, close side from the position sign,
deficit versus the summed close-side sizes, duplicate suppression,
similar-size skip, a five-attempt reduce-only post-only ladder with
verification, and a reduce-only market-order fallback. -/

/-- Rounding of a rational to an integer with round-half-to-even ties,
the default `Decimal` rounding. -/
def round_half_even (y : ℚ) : ℤ :=
  let n := ⌊y⌋
  if y - n < 1/2 then n
  else if y - n > 1/2 then n + 1
  else if n % 2 = 0 then n else n + 1

/-- The `quantize(Decimal('0.00000001'))` call at line 636. -/
def quantize8 (x : ℚ) : ℚ :=
  (round_half_even (x * 100000000) : ℚ) / 100000000

/-- Line 618: close side from the sign of the actual position
(`'sell' if position_amt > 0 else 'buy'`); `config.direction` is not
consulted. -/
def reconcile_close_side (position_amt : ℚ) : String :=
  if position_amt > 0 then "sell" else "buy"

/-- Function `_reconcile_price_for_attempt` (lines 654-657), identical
to `_compute_price_for_attempt`. -/
def reconcile_price_for_attempt (side : String) (k : ℕ) (bid ask tp_pct : ℚ) : ℚ :=
  if side == "sell" then bid * (1 - tp_pct / 100 * k)
  else ask * (1 + tp_pct / 100 * k)

/-- The size-only similarity test used by the skip block (line 669)
and its re-check (lines 675-679):
`abs(o.size - deficit) <= max(0.1, deficit * 0.01)` on a close-side
order. -/
def similar_size_close (orders : List ActiveOrder) (close_side : String) (deficit : ℚ) : Bool :=
  orders.any (fun o =>
    o.side == close_side && decide (|o.size - deficit| ≤ max (1/10) (deficit * (1/100))))

/-- Outcome of the per-attempt verification of lines 717-785
(`get_order_info` on the freshly placed id, with one 2-second retry
when it is not found). -/
inductive VerifyOutcome where
  /-- Status OPEN or PARTIALLY_FILLED: verified, reconcile succeeded. -/
  | openOk
  /-- Status contains POST-ONLY / POST_ONLY. -/
  | postOnlyCanceled
  /-- Status contains MARGIN. -/
  | marginCanceled
  /-- Not found even after the retry. -/
  | notFound
  /-- Found with some other non-open status. -/
  | otherStatus
deriving DecidableEq, Repr

/-- Per-attempt environment of the reconcile ladder, indexed by the
attempt number (1-based): the refreshed BBO, whether
`place_close_order` reported success, whether the result carried an
order id, whether the verification block raised, the verification
outcome, and the size/price fallback match used when no id is
available. -/
structure AttemptEnv where
  bid : ℕ → ℚ
  ask : ℕ → ℚ
  place_success : ℕ → Bool
  has_order_id : ℕ → Bool
  verify_exception : ℕ → Bool
  verify : ℕ → VerifyOutcome
  size_price_match : ℕ → Bool

/-- Environment of the market-order fallback (lines 797-855). -/
structure MarketEnv where
  /-- Did `place_market_order` report success. -/
  place_success : Bool
  /-- Status check at lines 814-831: the market order came back
  CANCELED / CANCELED-MARGIN-NOT-ALLOWED / REJECTED with zero fill. -/
  canceled_without_fill : Bool
  /-- Fresh position read at line 837. -/
  position_after : ℚ

/-- Inputs the reconciler reads before the ladder: the fresh position,
the active orders used for the coverage sum, the wall clock and the
stored duplicate-suppression signature, and the two further
active-order fetches used by the similar-size skip. -/
structure ReconcileEnv where
  position_amt : ℚ
  active_orders : List ActiveOrder
  now : ℚ
  last_sig : Option (String × ℚ)
  last_time : ℚ
  skip_orders : List ActiveOrder
  recheck_orders : List ActiveOrder

/-- The attempt loop of lines 688-794.  Arguments: current attempt
number, remaining attempts, and the consecutive POST-ONLY failure
count.  Returns the placement requests issued so far and `some placed`
on an early return (`none` means the loop ran out or broke to the
market fallback). -/
def reconcile_attempt_loop (close_side : String) (deficit tp : ℚ) (a : AttemptEnv) :
    ℕ → ℕ → ℕ → List PlaceReq × Option Bool
  | _, 0, _ => ([], none)
  | k, fuel + 1, pof =>
      let req : PlaceReq :=
        ⟨close_side, deficit,
          some (reconcile_price_for_attempt close_side k (a.bid k) (a.ask k) tp),
          true, false⟩
      let next := fun (pof2 : ℕ) =>
        let r := reconcile_attempt_loop close_side deficit tp a (k + 1) fuel pof2
        (req :: r.1, r.2)
      if a.place_success k then
        -- verification block (lines 718-791); an exception there is
        -- treated as success (lines 786-791).
        if a.verify_exception k then ([req], some true)
        else if a.has_order_id k then
          match a.verify k with
          | .openOk => ([req], some true)
          | .postOnlyCanceled =>
              if pof + 1 ≥ 3 then ([req], none) else next (pof + 1)
          | .marginCanceled => ([req], none)
          | .notFound =>
              if k ≥ 3 then
                if pof + 1 ≥ 3 then ([req], none) else next (pof + 1)
              else next pof
          | .otherStatus => next pof
        else
          -- lines 768-785: verify by size/price match.
          if a.size_price_match k then ([req], some true)
          else next pof
      else next pof

/-- The direction-dependent part of the reconciler: the warning of
lines 628-631 (position sign opposite to the configured direction).
This log line is the only place `config.direction` is read. -/
def reconcile_warns_direction_mismatch (direction : String) (position_amt : ℚ) : Bool :=
  let expected_sign : ℤ := if direction == "sell" then -1 else 1
  (decide (position_amt > 0) && decide (expected_sign < 0)) ||
    (decide (position_amt < 0) && decide (expected_sign > 0))

/-- The tail of `_reconcile_close_coverage` once a positive deficit
survives the guards: the five-attempt ladder (lines 688-794) followed
when necessary by the market fallback (lines 797-855; `deficit > 0`
holds here, so the line-799 guard never fires).  Returns whether a
top-up was placed-and-verified, with every request issued. -/
def reconcile_ladder_and_fallback (close_side : String) (deficit tp : ℚ)
    (a : AttemptEnv) (m : MarketEnv) (position_amt : ℚ) : Bool × List PlaceReq :=
  match reconcile_attempt_loop close_side deficit tp a 1 5 0 with
  | (reqs, some placed) => (placed, reqs)
  | (reqs, none) =>
      let mreq : PlaceReq := ⟨close_side, deficit, none, true, true⟩
      let reqs2 := reqs ++ [mreq]
      if m.place_success then
        if m.canceled_without_fill then (false, reqs2)
        else if |m.position_after| < |position_amt| then (true, reqs2)
        else (false, reqs2)
      else (false, reqs2)

/-- Core of `_reconcile_close_coverage` (everything except the
direction-mismatch warning): returns whether a top-up was placed and
verified, and every placement request issued. -/
def reconcile_core (tp : ℚ) (env : ReconcileEnv) (a : AttemptEnv) (m : MarketEnv) :
    Bool × List PlaceReq :=
  -- line 611: zero position.
  if env.position_amt = 0 then (false, [])
  else
    let close_side := reconcile_close_side env.position_amt
    let active_close_amount := sum_close_sizes env.active_orders close_side
    let required_close := |env.position_amt|
    -- line 633: coverage sufficient.
    if active_close_amount ≥ required_close then (false, [])
    else
      let deficit := quantize8 (required_close - active_close_amount)
      -- line 637.
      if deficit ≤ 0 then (false, [])
      else
        -- lines 640-649: duplicate suppression.
        let deficit_signature := (close_side, deficit)
        let timeout_window : ℚ := if env.last_sig = some deficit_signature then 30 else 5
        if env.last_sig = some deficit_signature ∧ env.now - env.last_time < timeout_window then
          (false, [])
        -- lines 663-686: similar-size skip with re-check.
        else if similar_size_close env.skip_orders close_side deficit ∧
            similar_size_close env.recheck_orders close_side deficit then
          (false, [])
        else reconcile_ladder_and_fallback close_side deficit tp a m env.position_amt

/-- Result of one reconcile pass. -/
structure ReconcileResult where
  placed : Bool
  requests : List PlaceReq
  warned : Bool
deriving DecidableEq, Repr

/-- Function `TradingBot._reconcile_close_coverage`
(src/trading_bot.py lines 604-858). -/
def reconcile_close_coverage (direction : String) (tp : ℚ)
    (env : ReconcileEnv) (a : AttemptEnv) (m : MarketEnv) : ReconcileResult :=
  { placed := (reconcile_core tp env a m).1,
    requests := (reconcile_core tp env a m).2,
    warned := reconcile_warns_direction_mismatch direction env.position_amt }

/-! ### Concrete scenario instances used by the theorems below. -/

/-- Main-loop state with one active close order of size 0.5 against a
bot configured with `max_orders = 1` (sell closes a buy-direction
grid). -/
def tickStateMaxed : TickInput :=
  { active_orders := [⟨"sell", 1/2, 101⟩], close_order_side := "sell",
    max_orders := 1, quantity := 1, has_current_position := false,
    current_position := 0, stop_trading := false, pause_trading := false }

/-- Main-loop state on the normal path: no active close orders,
capacity available, and no `current_position` attribute (the attribute
is never assigned in src/trading_bot.py). -/
def tickStateNormal : TickInput :=
  { active_orders := [], close_order_side := "sell",
    max_orders := 5, quantity := 1, has_current_position := false,
    current_position := 0, stop_trading := false, pause_trading := false }

/-- A loaded mirror book: one bid at 98 and one ask at 99,
offset 5. -/
def bookLoaded : LighterBook :=
  { bids := [(98, 1)], asks := [(99, 1)], offset := 5,
    snapshot_loaded := true, sequence_gap := false,
    best_bid := none, best_ask := none }

/-- A delta that lifts the best bid to 100 without touching the asks:
after applying it the book is crossed (best bid 100 ≥ best ask 99)
while every price and size stays positive. -/
def crossingDelta : WsMessage := .delta (some 6) [(100, 1)] []

/-- A stale delta: offset 5 is not greater than the recorded offset of
`bookLoaded`. -/
def staleDelta : WsMessage := .delta (some 5) [(97, 3)] []

/-- Reconcile inputs: long position of 2 with no active close orders
and no recent signature. -/
def reconcileEnvSample : ReconcileEnv :=
  { position_amt := 2, active_orders := [], now := 100, last_sig := none,
    last_time := 0, skip_orders := [], recheck_orders := [] }

/-- Reconcile inputs: long position of 2 already covered by an active
sell close order of size 3. -/
def reconcileEnvCovered : ReconcileEnv :=
  { position_amt := 2, active_orders := [⟨"sell", 3, 101⟩], now := 100,
    last_sig := none, last_time := 0, skip_orders := [], recheck_orders := [] }

/-- Attempt oracles: placement acknowledged and verified OPEN on every
attempt. -/
def attemptEnvSample : AttemptEnv :=
  { bid := fun _ => 99, ask := fun _ => 101, place_success := fun _ => true,
    has_order_id := fun _ => true, verify_exception := fun _ => false,
    verify := fun _ => .openOk, size_price_match := fun _ => false }

/-- Market-fallback oracles: the market order succeeds and the position
shrinks to zero. -/
def marketEnvSample : MarketEnv :=
  { place_success := true, canceled_without_fill := false, position_after := 0 }

/-! ## Theorems -/

/-- C10 counterexample: the generator
`client_order_index = time_ms % 1000000` repeats within 24 hours.  The
two instants below are 1000000 ms (about 16.7 minutes) apart — well
inside a 24-hour window (86400000 ms) — yet receive the same client
order id, so two orders of one account placed at these times collide. -/
theorem c10_counterexample :
    client_order_index 1700000000000 = client_order_index 1700001000000 ∧
    (1700000000000 : ℕ) ≠ 1700001000000 ∧
    1700001000000 - 1700000000000 ≤ 86400000 := by
  refine ⟨?_, by decide, by decide⟩
  decide

/-- C10 amended: the generator yields distinct ids only while the two
placement times are less than 1000000 ms apart (and land on distinct
milliseconds); uniqueness over a full 24-hour window does not hold. -/
theorem c10_amended (t1 t2 : ℕ) (h1 : t1 < t2) (h2 : t2 - t1 < 1000000) :
    client_order_index t1 ≠ client_order_index t2 := by
  intro h
  unfold client_order_index at h
  have hdvd : (1000000 : ℕ) ∣ t2 - t1 := (Nat.modEq_iff_dvd' h1.le).mp h
  have := Nat.le_of_dvd (by omega) hdvd
  omega

/-- C10 witness: the amended theorem at the concrete pair 0 and 1. -/
theorem c10_amended_witness :
    (0 : ℕ) < 1 ∧ (1 : ℕ) - 0 < 1000000 ∧
    client_order_index 0 ≠ client_order_index 1 :=
  ⟨by decide, by decide, c10_amended 0 1 (by decide) (by decide)⟩

/-- C7 counterexample: after a successful fetch reporting a long
position of 5 on market 1, a second call whose fetch fails returns
`Decimal(0)` — a fabricated flat value — not the cached 5 that the
claim (and the spec-modelled variant) prescribes. -/
theorem c7_counterexample :
    get_account_positions (.ok [⟨1, 1, 5⟩]) 1 = 5 ∧
    get_account_positions (.error "api error") 1 = 0 ∧
    get_account_positions_spec (.error "api error") 1 5 = 5 ∧
    get_account_positions (.error "api error") 1 ≠
      get_account_positions_spec (.error "api error") 1 5 := by
  refine ⟨by decide, rfl, rfl, by decide⟩

/-- C7 amended: on any API error `get_account_positions` returns 0
(the account is reported flat) — no cached value exists or is
consulted; a successful fetch returns the sign-adjusted size of the
matching market entry, or 0 when no entry matches. -/
theorem c7_amended (msg : String) (cid : ℤ) (amt : ℚ)
    (rest : List LighterApiPosition) :
    get_account_positions (.error msg) cid = 0 ∧
    get_account_positions (.ok (⟨cid, -1, amt⟩ :: rest)) cid = -amt ∧
    get_account_positions (.ok (⟨cid, 1, amt⟩ :: rest)) cid = amt ∧
    get_account_positions (.ok []) cid = 0 := by
  refine ⟨rfl, ?_, ?_, rfl⟩ <;>
    simp [get_account_positions, find_signed_position]

/-- C7 witness: the amended theorem at a concrete error and a concrete
position list. -/
theorem c7_amended_witness :
    get_account_positions (.error "timeout") 3 = 0 ∧
    get_account_positions (.ok [⟨3, -1, 7⟩]) 3 = -7 :=
  ⟨(c7_amended "timeout" 3 7 []).1, (c7_amended "timeout" 3 7 []).2.1⟩

/-- C2 (code bug): on the normal main-loop path of src/trading_bot.py
(fewer active close orders than `max_orders`, no `current_position`
attribute — that attribute is never assigned in the file),
`_calculate_wait_time` falls off its mis-indented end and returns
Python None; the comparison `wait_time > 0` then raises `TypeError`,
which propagates out of the iteration to the handler wrapped around
the whole loop (graceful shutdown + re-raise) instead of the iteration
resuming.  The tick variant, whose `return 0` is correctly placed,
returns 0 on the same inputs. -/
theorem c2_wait_time_type_error (t : TickInput)
    (h1 : (active_close_of t).length < t.max_orders)
    (h2 : t.has_current_position = false)
    (h3 : t.stop_trading = false) (h4 : t.pause_trading = false) :
    calculate_wait_time (active_close_of t).length t.max_orders
      t.has_current_position t.current_position t.quantity = none ∧
    grid_tick_dispatch t = .raisedTypeError ∧
    calculate_wait_time_tick (active_close_of t).length t.max_orders
      t.has_current_position t.current_position t.quantity = 0 := by
  have hn : ¬ (active_close_of t).length ≥ t.max_orders := by omega
  have hw : calculate_wait_time (active_close_of t).length t.max_orders
      t.has_current_position t.current_position t.quantity = none := by
    unfold calculate_wait_time
    simp [hn, h2]
  refine ⟨hw, ?_, ?_⟩
  · unfold grid_tick_dispatch
    simp [h3, h4, hw, wait_time_gt_zero]
  · unfold calculate_wait_time_tick
    simp [hn, h2]

/-- C2 witness: the failing input made concrete — an empty active
order list with capacity 5. -/
theorem c2_wait_time_type_error_witness :
    (active_close_of tickStateNormal).length < tickStateNormal.max_orders ∧
    grid_tick_dispatch tickStateNormal = .raisedTypeError :=
  ⟨by decide,
    (c2_wait_time_type_error tickStateNormal (by decide) rfl rfl rfl).2.1⟩

/-- C8 counterexample: maker position 0.1, taker position 0, order
quantity 1.  The spec tolerance is `ε = 0.001 × 1` and the imbalance
0.1 exceeds it, yet the Extended+Lighter trading loop neither halts
(its only check is `> 0.2`) nor issues any corrective order, and the
GRVT variant merely re-reads its cached positions (`sync_positions`)
without placing the claimed reduce-only taker order for −0.1. -/
theorem c8_counterexample :
    spec_hedge_epsilon 1 = 1/1000 ∧
    |(1/10 : ℚ) + 0| > spec_hedge_epsilon 1 ∧
    ext_trading_loop_entry (1/10) 0 = ⟨false, none⟩ ∧
    grvt_step3_action (1/10) 0 = ⟨true, none⟩ := by
  have habs : |(1/10 : ℚ) + 0| = 1/10 := by
    rw [add_zero, abs_of_nonneg] ; norm_num
  refine ⟨rfl, ?_, ?_, ?_⟩
  · rw [habs] ; norm_num [spec_hedge_epsilon]
  · simp only [ext_trading_loop_entry, ext_position_gate, IterEntry.mk.injEq]
    rw [habs]
    norm_num
  · simp only [grvt_step3_action, grvt_step3_mismatch, GrvtStep3.mk.injEq]
    rw [habs]
    norm_num

/-- C8 amended: the hedge variants enforce no `0.001 × quantity`
tolerance and never place corrective orders.  The Extended+Lighter
loop halts (breaks out of trading) exactly when
`|maker + taker| > 0.2` and issues no order; the GRVT variant at step
3 triggers a read-only position re-sync exactly when the imbalance
exceeds 0.01, likewise issuing no order. -/
theorem c8_amended (g l : ℚ) :
    ((ext_trading_loop_entry g l).halt = true ↔ |g + l| > 1/5) ∧
    (ext_trading_loop_entry g l).corrective_order = none ∧
    ((grvt_step3_action g l).sync_triggered = true ↔ |g + l| > 1/100) ∧
    (grvt_step3_action g l).corrective_order = none := by
  refine ⟨?_, rfl, ?_, rfl⟩ <;>
    simp [ext_trading_loop_entry, grvt_step3_action, ext_position_gate,
      grvt_step3_mismatch]

/-- C8 witness: the amended theorem at the imbalance 0.3 / 0. -/
theorem c8_amended_witness :
    (ext_trading_loop_entry (3/10) 0).halt = true ∧
    (grvt_step3_action (3/10) 0).sync_triggered = true := by
  have habs : |(3/10 : ℚ) + 0| = 3/10 := by
    rw [add_zero, abs_of_nonneg] ; norm_num
  exact ⟨((c8_amended (3/10) 0).1).mpr (by rw [habs] ; norm_num),
    ((c8_amended (3/10) 0).2.2.1).mpr (by rw [habs] ; norm_num)⟩

/-- Helper for C4: the capped wait loop of src/trading_bot_tick.py can
add at most `fuel` iterations to the running count. -/
theorem tick_wait_aux_le (direction : String) (orig_price : ℚ)
    (prices : ℕ → ℚ) (statuses : ℕ → String) (fully_filled : ℕ → Bool) :
    ∀ fuel k, tick_wait_aux direction orig_price prices statuses fully_filled k fuel ≤ k + fuel := by
  intro fuel
  induction fuel with
  | zero => intro k ; simp [tick_wait_aux]
  | succ n ih =>
      intro k
      unfold tick_wait_aux
      split
      · split
        · omega
        · have := ih (k + 1)
          omega
      · omega

/-- C4 counterexample: in src/trading_bot.py the wait condition is
non-strict — at a BBO equal to the original opening price (no strict
improvement) `should_wait` still returns true, where the tick variant
returns false — and the loop is uncapped: with the price pinned at the
opening price and the status pinned at OPEN, the loop is still running
after its seventh check (and any later one), so it does not terminate
within the claimed 30-second / 6-iteration bound while the order stays
OPEN. -/
theorem c4_counterexample :
    should_wait "buy" 100 100 = true ∧
    should_wait_tick "buy" 100 100 = false ∧
    pct_wait_running "buy" 100 (fun _ => 100) (fun _ => "OPEN") 6 = true ∧
    pct_wait_running "buy" 100 (fun _ => 100) (fun _ => "OPEN") 60 = true := by
  refine ⟨?_, ?_, ?_, ?_⟩ <;> decide

/-- C4 amended: the tick variant (src/trading_bot_tick.py) behaves as
claimed — its `should_wait` uses strict comparisons (wait only while
the BBO strictly improves on the original price) and its wait loop
performs at most 6 five-second iterations for any stream of price and
status observations; the percent variant (src/trading_bot.py) instead
waits on non-strict comparisons and carries no iteration cap. -/
theorem c4_amended :
    (∀ p q : ℚ,
      should_wait_tick "buy" p q = decide (p < q) ∧
      should_wait_tick "sell" p q = decide (p > q) ∧
      should_wait "buy" p q = decide (p ≤ q) ∧
      should_wait "sell" p q = decide (p ≥ q)) ∧
    ∀ direction orig_price prices statuses fully_filled,
      tick_wait_count direction orig_price prices statuses fully_filled ≤ 6 := by
  constructor
  · intro p q
    refine ⟨rfl, ?_, rfl, ?_⟩ <;> rfl
  · intro direction orig_price prices statuses fully_filled
    have := tick_wait_aux_le direction orig_price prices statuses fully_filled 6 0
    simpa [tick_wait_count] using this

/-- C5 (confirmed): sequence validation of the Lighter book mirror.
With the snapshot loaded: a delta whose offset is not strictly greater
than the recorded offset is never applied — the books are left
untouched, `sequence_gap` is marked, and the message loop breaks so
that the outer loop discards the book (`reset_lighter_order_book`) and
resubscribes for a fresh snapshot; a delta that is applied (offset
strictly greater) updates the two sides with exactly its levels; and
any delta arriving before the first snapshot is ignored outright. -/
theorem c5_offset_validation :
    (∀ (st : LighterBook) (o : ℤ) (bs asks2 : List (ℚ × ℚ)),
      st.snapshot_loaded = true → o ≤ st.offset →
      handle_ws_message st (.delta (some o) bs asks2) =
        ({ st with sequence_gap := true }, .resubscribe) ∧
      effective_next st (.delta (some o) bs asks2) = reset_lighter_order_book) ∧
    (∀ (st : LighterBook) (o : ℤ) (bs asks2 : List (ℚ × ℚ)),
      st.snapshot_loaded = true → st.offset < o →
      (handle_ws_message st (.delta (some o) bs asks2)).1.bids =
        update_lighter_order_book st.bids bs ∧
      (handle_ws_message st (.delta (some o) bs asks2)).1.asks =
        update_lighter_order_book st.asks asks2) ∧
    (∀ (st : LighterBook) (oopt : Option ℤ) (bs asks2 : List (ℚ × ℚ)),
      st.snapshot_loaded = false →
      handle_ws_message st (.delta oopt bs asks2) = (st, .keep)) := by
  refine ⟨?_, ?_, ?_⟩
  · intro st o bs asks2 hloaded hstale
    have hv : validate_order_book_offset st o = false := by
      simp [validate_order_book_offset] ; omega
    have h1 : handle_ws_message st (.delta (some o) bs asks2) =
        ({ st with sequence_gap := true }, .resubscribe) := by
      simp [handle_ws_message, hloaded, hv]
    exact ⟨h1, by simp [effective_next, h1]⟩
  · intro st o bs asks2 hloaded hfresh
    have hv : validate_order_book_offset st o = true := by
      simp [validate_order_book_offset] ; omega
    constructor <;>
      · simp only [handle_ws_message, hloaded, hv, if_true]
        split <;> rfl
  · intro st oopt bs asks2 hnot
    simp [handle_ws_message, hnot]

/-- C5 witness: the validation at the concrete loaded book and a stale
delta (offset 5 against recorded offset 5), plus the ignore case on
the freshly reset book. -/
theorem c5_offset_validation_witness :
    bookLoaded.snapshot_loaded = true ∧ (5 : ℤ) ≤ bookLoaded.offset ∧
    handle_ws_message bookLoaded staleDelta =
      ({ bookLoaded with sequence_gap := true }, .resubscribe) ∧
    effective_next bookLoaded staleDelta = reset_lighter_order_book ∧
    reset_lighter_order_book.snapshot_loaded = false ∧
    handle_ws_message reset_lighter_order_book staleDelta =
      (reset_lighter_order_book, .keep) := by
  refine ⟨rfl, by decide, ?_, ?_, rfl, ?_⟩
  · exact (c5_offset_validation.1 bookLoaded 5 [(97, 3)] [] rfl (by decide)).1
  · exact (c5_offset_validation.1 bookLoaded 5 [(97, 3)] [] rfl (by decide)).2
  · exact c5_offset_validation.2.2 reset_lighter_order_book (some 5) [(97, 3)] [] rfl

/-- C6 counterexample: applying `crossingDelta` to `bookLoaded` lifts
the best bid to 100 while the best ask stays 99: the resulting book is
crossed (best bid ≥ best ask), every price and size is positive, the
integrity check passes, and the handler keeps reading — the book is
not marked invalid and no resubscribe is forced, contradicting the
claim that a crossed book is detected and invalidated. -/
theorem c6_counterexample :
    (handle_ws_message bookLoaded crossingDelta).2 = .keep ∧
    (handle_ws_message bookLoaded crossingDelta).1.best_bid = some 100 ∧
    (handle_ws_message bookLoaded crossingDelta).1.best_ask = some 99 ∧
    validate_order_book_integrity (handle_ws_message bookLoaded crossingDelta).1 = true ∧
    (99 : ℚ) ≤ 100 := by
  refine ⟨?_, ?_, ?_, ?_, by norm_num⟩ <;> decide

/-- C6 amended: after every applied delta the mirror guarantees only
positivity, not uncrossedness: the integrity check passes exactly when
every price and size on both sides is positive; when it fails the
message loop breaks, which discards the book and forces a fresh
snapshot; the relation between best bid and best ask is never
examined. -/
theorem c6_amended :
    (∀ book : LighterBook,
      validate_order_book_integrity book = true ↔
        ∀ l ∈ book.bids ++ book.asks, 0 < l.1 ∧ 0 < l.2) ∧
    (∀ (st : LighterBook) (o : ℤ) (bs asks2 : List (ℚ × ℚ)),
      st.snapshot_loaded = true → st.offset < o →
      ((handle_ws_message st (.delta (some o) bs asks2)).2 = .keep ↔
        validate_order_book_integrity
          { st with bids := update_lighter_order_book st.bids bs,
                    asks := update_lighter_order_book st.asks asks2 } = true)) ∧
    (∀ (st : LighterBook) (msg : WsMessage),
      (handle_ws_message st msg).2 = .resubscribe →
      effective_next st msg = reset_lighter_order_book) := by
  refine ⟨?_, ?_, ?_⟩
  · intro book
    simp only [validate_order_book_integrity, List.all_eq_true, List.mem_append,
      Bool.and_eq_true, decide_eq_true_eq, Prod.forall]
  · intro st o bs asks2 hloaded hfresh
    have hv : validate_order_book_offset st o = true := by
      simp [validate_order_book_offset] ; omega
    simp only [handle_ws_message, hloaded, hv, if_true]
    split
    · simp_all
    · simp_all
  · intro st msg hres
    simp only [effective_next]
    split
    · rename_i heq
      rw [heq] at hres
      simp at hres
    · rfl

/-- C6 witness: the amended theorem at a delta that pushes a
nonpositive price into the book (price 0): integrity fails and the
handler breaks to a resubscribe that discards the book. -/
theorem c6_amended_witness :
    bookLoaded.snapshot_loaded = true ∧ bookLoaded.offset < 6 ∧
    ((handle_ws_message bookLoaded (.delta (some 6) [(0, 2)] [])).2 = .keep ↔
      validate_order_book_integrity
        { bookLoaded with
            bids := update_lighter_order_book bookLoaded.bids [(0, 2)],
            asks := update_lighter_order_book bookLoaded.asks [] } = true) ∧
    (handle_ws_message bookLoaded (.delta (some 6) [(0, 2)] [])).2 = .resubscribe ∧
    effective_next bookLoaded (.delta (some 6) [(0, 2)] []) = reset_lighter_order_book := by
  have h2 : (handle_ws_message bookLoaded (.delta (some 6) [(0, 2)] [])).2 = .resubscribe := by
    decide
  refine ⟨rfl, by decide, ?_, h2, ?_⟩
  · exact c6_amended.2.1 bookLoaded 6 [(0, 2)] [] rfl (by decide)
  · exact c6_amended.2.2 bookLoaded (.delta (some 6) [(0, 2)] []) h2

/-- Helper for C3: every request the partial-fill close ladder issues
(the five limit attempts and the market fallback) is reduce-only and
sized exactly at the resolved fill amount. -/
theorem partial_ladder_aux_all (amount : ℚ) (close_side : String) (tp : ℚ)
    (bid ask : ℕ → ℚ) (place_success : ℕ → Bool) :
    ∀ fuel k, (partial_ladder_aux amount close_side tp bid ask place_success k fuel).all
      (fun r => r.size == amount && r.reduce_only) = true := by
  intro fuel
  induction fuel with
  | zero =>
      intro k
      unfold partial_ladder_aux
      split
      · rfl
      · simp
  | succ n ih =>
      intro k
      unfold partial_ladder_aux
      split
      · simp
      · simp only [List.all_cons, Bool.and_eq_true, beq_self_eq_true]
        exact ⟨by simp, ih (k + 1)⟩

/-- Helper for C3: a source with a positive fill passes the
`x and x.filled_size > 0` test. -/
theorem fill_positive_true {o : FillSource} (h : 0 < o.filled_size) :
    fill_positive (some o) = true := by
  simp [fill_positive, h]

/-- Helper for C3: an absent source fails the test. -/
theorem fill_positive_none : fill_positive none = false := rfl

/-- C3 (confirmed): after cancelling a still-open order the engine
resolves the filled amount by consulting, in priority order, the
finalized-order REST endpoint, the active-order REST reads, the
WebSocket cache, and the partial-fill rescue cache; whichever source
first reports a positive fill fixes the amount, every close request of
the TP ladder is then sized exactly at that amount, and the execution
price comes from the finalized endpoint, else from the order-info
value on hand, else from the original order price. -/
theorem c3_fill_source_priority :
    (∀ (f : FillSource) (a1 a2 a3 : Option FillSource) (ws rc op : ℚ),
      0 < f.filled_size →
      resolve_filled_after_cancel (some f) a1 a2 a3 ws rc op = ⟨f.filled_size, f.price⟩) ∧
    (∀ (fin : Option FillSource) (o : FillSource) (a2 a3 : Option FillSource) (ws rc op : ℚ),
      fill_positive fin = false → 0 < o.filled_size →
      resolve_filled_after_cancel fin (some o) a2 a3 ws rc op = ⟨o.filled_size, o.price⟩) ∧
    (∀ (fin a1 : Option FillSource) (o : FillSource) (a3 : Option FillSource) (ws rc op : ℚ),
      fill_positive fin = false → fill_positive a1 = false → 0 < o.filled_size →
      resolve_filled_after_cancel fin a1 (some o) a3 ws rc op = ⟨o.filled_size, o.price⟩) ∧
    (∀ (fin a1 a2 : Option FillSource) (o : FillSource) (ws rc op : ℚ),
      fill_positive fin = false → fill_positive a1 = false → fill_positive a2 = false →
      0 < o.filled_size →
      resolve_filled_after_cancel fin a1 a2 (some o) ws rc op = ⟨o.filled_size, o.price⟩) ∧
    (∀ (fin a1 a2 : Option FillSource) (ws rc op : ℚ),
      fill_positive fin = false → fill_positive a1 = false → fill_positive a2 = false →
      0 < ws →
      resolve_filled_after_cancel fin a1 a2 none ws rc op = ⟨ws, op⟩) ∧
    (∀ (fin a1 a2 : Option FillSource) (rc op : ℚ),
      fill_positive fin = false → fill_positive a1 = false → fill_positive a2 = false →
      0 < rc →
      resolve_filled_after_cancel fin a1 a2 none 0 rc op = ⟨rc, op⟩) ∧
    (∀ (fin a1 a2 : Option FillSource) (o3 : FillSource) (ws rc op : ℚ),
      fill_positive fin = false → fill_positive a1 = false → fill_positive a2 = false →
      fill_positive (some o3) = false → 0 < ws →
      resolve_filled_after_cancel fin a1 a2 (some o3) ws rc op = ⟨ws, o3.price⟩) ∧
    (∀ (amount : ℚ) (close_side : String) (tp : ℚ) (bid ask : ℕ → ℚ)
        (place_success : ℕ → Bool),
      (partial_fill_close_requests amount close_side tp bid ask place_success).all
        (fun r => r.size == amount && r.reduce_only) = true) := by
  refine ⟨?_, ?_, ?_, ?_, ?_, ?_, ?_, ?_⟩
  · intro f a1 a2 a3 ws rc op h
    simp [resolve_filled_after_cancel, fill_positive_true h]
  · intro fin o a2 a3 ws rc op hfin h
    simp [resolve_filled_after_cancel, api_retry_loop, hfin,
      fill_positive_true h, h, h.ne']
  · intro fin a1 o a3 ws rc op hfin h1 h
    simp [resolve_filled_after_cancel, api_retry_loop, hfin, h1,
      fill_positive_true h, h, h.ne']
  · intro fin a1 a2 o ws rc op hfin h1 h2 h
    simp [resolve_filled_after_cancel, api_retry_loop, hfin, h1, h2,
      fill_positive_true h, h, h.ne']
  · intro fin a1 a2 ws rc op hfin h1 h2 h
    simp [resolve_filled_after_cancel, api_retry_loop, fill_positive_none,
      hfin, h1, h2, h, h.ne']
  · intro fin a1 a2 rc op hfin h1 h2 h
    simp [resolve_filled_after_cancel, api_retry_loop, fill_positive_none,
      hfin, h1, h2, h]
  · intro fin a1 a2 o3 ws rc op hfin h1 h2 h3 h
    simp [resolve_filled_after_cancel, api_retry_loop,
      hfin, h1, h2, h3, h, h.ne']
  · intro amount close_side tp bid ask place_success
    exact partial_ladder_aux_all amount close_side tp bid ask place_success 5 1

/-- C3 witness: the priority chain evaluated at concrete sources — a
finalized fill of 2 at 100; an order-info fill of 1 at 101 behind an
empty finalized read; a WebSocket fill of 0.3 priced at the original
99; and a rescue-cache fill of 0.7. -/
theorem c3_fill_source_priority_witness :
    resolve_filled_after_cancel (some ⟨2, 100⟩) none none none 0 0 99 = ⟨2, 100⟩ ∧
    resolve_filled_after_cancel none (some ⟨1, 101⟩) none none 0 0 99 = ⟨1, 101⟩ ∧
    resolve_filled_after_cancel none none (some ⟨1, 102⟩) none 0 0 99 = ⟨1, 102⟩ ∧
    resolve_filled_after_cancel none none none (some ⟨1, 103⟩) 0 0 99 = ⟨1, 103⟩ ∧
    resolve_filled_after_cancel none none none none (3/10) 0 99 = ⟨3/10, 99⟩ ∧
    resolve_filled_after_cancel none none none none 0 (7/10) 99 = ⟨7/10, 99⟩ ∧
    resolve_filled_after_cancel none none none (some ⟨0, 103⟩) (3/10) 0 99 = ⟨3/10, 103⟩ ∧
    (partial_fill_close_requests (3/10) "sell" (1/2) (fun _ => 100) (fun _ => 101)
      (fun _ => false)).all (fun r => r.size == (3/10 : ℚ) && r.reduce_only) = true := by
  refine ⟨?_, ?_, ?_, ?_, ?_, ?_, ?_, ?_⟩
  · exact c3_fill_source_priority.1 ⟨2, 100⟩ none none none 0 0 99 (by norm_num)
  · exact c3_fill_source_priority.2.1 none ⟨1, 101⟩ none none 0 0 99 rfl (by norm_num)
  · exact c3_fill_source_priority.2.2.1 none none ⟨1, 102⟩ none 0 0 99 rfl rfl (by norm_num)
  · exact c3_fill_source_priority.2.2.2.1 none none none ⟨1, 103⟩ 0 0 99 rfl rfl rfl
      (by norm_num)
  · exact c3_fill_source_priority.2.2.2.2.1 none none none (3/10) 0 99 rfl rfl rfl
      (by norm_num)
  · exact c3_fill_source_priority.2.2.2.2.2.1 none none none (7/10) 99 rfl rfl rfl
      (by norm_num)
  · exact c3_fill_source_priority.2.2.2.2.2.2.1 none none none ⟨0, 103⟩ (3/10) 0 99
      rfl rfl rfl (by simp [fill_positive]) (by norm_num)
  · exact c3_fill_source_priority.2.2.2.2.2.2.2 (3/10) "sell" (1/2) (fun _ => 100)
      (fun _ => 101) (fun _ => false)

/-- Helper for C9: every limit request the reconcile attempt loop
issues is reduce-only and on the close side handed to it. -/
theorem reconcile_attempt_loop_sides (close_side : String) (deficit tp : ℚ)
    (a : AttemptEnv) :
    ∀ fuel k pof,
      ((reconcile_attempt_loop close_side deficit tp a k fuel pof).1).all
        (fun r => r.side == close_side && r.reduce_only) = true := by
  intro fuel
  induction fuel with
  | zero => intro k pof ; simp [reconcile_attempt_loop]
  | succ n ih =>
      intro k pof
      simp only [reconcile_attempt_loop]
      repeat' split
      all_goals simp [ih]

/-- Helper for C9: the ladder-plus-fallback tail issues only
reduce-only requests on the handed close side. -/
theorem reconcile_ladder_requests_all (close_side : String) (deficit tp : ℚ)
    (a : AttemptEnv) (m : MarketEnv) (position_amt : ℚ) :
    ((reconcile_ladder_and_fallback close_side deficit tp a m position_amt).2).all
      (fun r => r.side == close_side && r.reduce_only) = true := by
  unfold reconcile_ladder_and_fallback
  have h := reconcile_attempt_loop_sides close_side deficit tp a 5 1 0
  rcases hl : reconcile_attempt_loop close_side deficit tp a 1 5 0 with ⟨reqs, res⟩
  rw [hl] at h
  cases res with
  | some placed => simpa [hl] using h
  | none =>
      simp only [hl]
      repeat' split
      all_goals simpa [List.all_append] using h

/-- Helper for C9/C1: every request the reconciler issues (limit
ladder and market fallback alike) is reduce-only and on the side
computed from the position sign. -/
theorem reconcile_core_requests_all (tp : ℚ) (env : ReconcileEnv)
    (a : AttemptEnv) (m : MarketEnv) :
    ((reconcile_core tp env a m).2).all
      (fun r => r.side == reconcile_close_side env.position_amt && r.reduce_only) = true := by
  simp only [reconcile_core]
  repeat' split
  all_goals first
    | rfl
    | exact reconcile_ladder_requests_all _ _ _ _ _ _

/-- C9 (confirmed): the reconciler derives the close side from the
sign of the actual position — sell for a long, buy for a short — and
the configured strategy direction plays no part: every request a
reconcile pass issues (all reduce-only) is on that sign-derived side,
and two passes that differ only in the configured direction issue
identical requests and report the same outcome, so a mis-hedged
position opposite to the configured direction is still reduced toward
zero. -/
theorem c9_close_side_from_position_sign :
    (∀ (d1 d2 : String) (tp : ℚ) (env : ReconcileEnv) (a : AttemptEnv) (m : MarketEnv),
      ((reconcile_close_coverage d1 tp env a m).requests.all
        (fun r => r.side == reconcile_close_side env.position_amt && r.reduce_only)) = true ∧
      (reconcile_close_coverage d1 tp env a m).requests =
        (reconcile_close_coverage d2 tp env a m).requests ∧
      (reconcile_close_coverage d1 tp env a m).placed =
        (reconcile_close_coverage d2 tp env a m).placed) ∧
    (∀ p : ℚ, 0 < p → reconcile_close_side p = "sell") ∧
    (∀ p : ℚ, p < 0 → reconcile_close_side p = "buy") := by
  refine ⟨?_, ?_, ?_⟩
  · intro d1 d2 tp env a m
    exact ⟨reconcile_core_requests_all tp env a m, rfl, rfl⟩
  · intro p hp
    simp [reconcile_close_side, hp]
  · intro p hp
    have : ¬ (p > 0) := by linarith
    simp [reconcile_close_side, this]

/-- C9 witness: the sign rule at positions 2 and −2, and the
side/reduce-only property of an actual pass over a long position of 2
with no close coverage (its ladder places sell orders). -/
theorem c9_close_side_witness :
    reconcile_close_side 2 = "sell" ∧
    reconcile_close_side (-2) = "buy" ∧
    ((reconcile_close_coverage "buy" 1 reconcileEnvSample attemptEnvSample
        marketEnvSample).requests.all
      (fun r => r.side == reconcile_close_side reconcileEnvSample.position_amt &&
        r.reduce_only)) = true ∧
    (reconcile_close_coverage "buy" 1 reconcileEnvSample attemptEnvSample
        marketEnvSample).requests =
      (reconcile_close_coverage "sell" 1 reconcileEnvSample attemptEnvSample
        marketEnvSample).requests :=
  ⟨c9_close_side_from_position_sign.2.1 2 (by norm_num),
   c9_close_side_from_position_sign.2.2 (-2) (by norm_num),
   (c9_close_side_from_position_sign.1 "buy" "sell" 1 reconcileEnvSample
     attemptEnvSample marketEnvSample).1,
   (c9_close_side_from_position_sign.1 "buy" "sell" 1 reconcileEnvSample
     attemptEnvSample marketEnvSample).2.1⟩

/-- C1 counterexample: a main-loop tick of src/trading_bot.py with one
active sell close order of size 0.5, `max_orders = 1`, and a net
position of 2.  The tick computes `wait_time = 1` (order count at
capacity), sleeps and restarts without ever calling the reconciler, so
at this tick exit the summed close coverage 0.5 is strictly below the
position 2 while no reconcile attempt is in flight — the claimed
invariant fails on the wait-time exit path, which runs before the
reconcile step. -/
theorem c1_counterexample :
    grid_tick_dispatch tickStateMaxed = .waitSleep 1 ∧
    tick_reconcile_attempted tickStateMaxed = false ∧
    sum_close_sizes tickStateMaxed.active_orders tickStateMaxed.close_order_side = 1/2 ∧
    (1/2 : ℚ) < |(2 : ℚ)| := by
  have h1 : grid_tick_dispatch tickStateMaxed = .waitSleep 1 := by
    simp [grid_tick_dispatch, tickStateMaxed, active_close_of,
      calculate_wait_time, wait_time_gt_zero]
  refine ⟨h1, ?_, ?_, ?_⟩
  · simp [tick_reconcile_attempted, h1]
  · simp [sum_close_sizes, tickStateMaxed]
  · rw [abs_of_nonneg (by norm_num : (0:ℚ) ≤ 2)] ; norm_num

/-- C1 amended: the reconciler half of the claim holds — a reconcile
pass places nothing and reports no top-up whenever the position is
zero or the summed active close-side sizes already cover the absolute
position (deficit ≤ 0) — but the per-tick coverage invariant does not:
any iteration whose active close-order count has reached `max_orders`
exits through the wait-time sleep before the reconcile step, making no
reconcile attempt regardless of how little size those orders cover. -/
theorem c1_coverage_amended :
    (∀ (direction : String) (tp : ℚ) (env : ReconcileEnv) (a : AttemptEnv) (m : MarketEnv),
      env.position_amt = 0 ∨
        |env.position_amt| ≤
          sum_close_sizes env.active_orders (reconcile_close_side env.position_amt) →
      (reconcile_close_coverage direction tp env a m).placed = false ∧
      (reconcile_close_coverage direction tp env a m).requests = []) ∧
    (∀ t : TickInput, t.stop_trading = false → t.pause_trading = false →
      t.max_orders ≤ (active_close_of t).length →
      grid_tick_dispatch t = .waitSleep 1 ∧ tick_reconcile_attempted t = false) := by
  constructor
  · intro direction tp env a m h
    rcases h with h0 | hcov
    · constructor <;>
        simp [reconcile_close_coverage, reconcile_core, h0]
    · by_cases h0 : env.position_amt = 0
      · constructor <;> simp [reconcile_close_coverage, reconcile_core, h0]
      · constructor <;>
          simp [reconcile_close_coverage, reconcile_core, h0, ge_iff_le, hcov]
  · intro t h3 h4 hmax
    have hw : calculate_wait_time (active_close_of t).length t.max_orders
        t.has_current_position t.current_position t.quantity = some 1 := by
      unfold calculate_wait_time
      simp [hmax]
    have h1 : grid_tick_dispatch t = .waitSleep 1 := by
      unfold grid_tick_dispatch
      simp [h3, h4, hw, wait_time_gt_zero]
    exact ⟨h1, by simp [tick_reconcile_attempted, h1]⟩

/-- C1 witness: the reconciler at a long position of 2 covered by a
sell close of size 3 places nothing, and the concrete at-capacity tick
exits through the wait sleep without a reconcile attempt. -/
theorem c1_coverage_amended_witness :
    (reconcile_close_coverage "buy" 1 reconcileEnvCovered attemptEnvSample
      marketEnvSample).placed = false ∧
    (reconcile_close_coverage "buy" 1 reconcileEnvCovered attemptEnvSample
      marketEnvSample).requests = [] ∧
    grid_tick_dispatch tickStateMaxed = .waitSleep 1 ∧
    tick_reconcile_attempted tickStateMaxed = false := by
  have hcov : |reconcileEnvCovered.position_amt| ≤
      sum_close_sizes reconcileEnvCovered.active_orders
        (reconcile_close_side reconcileEnvCovered.position_amt) := by
    simp [reconcileEnvCovered, sum_close_sizes, reconcile_close_side]
    norm_num
  have h := c1_coverage_amended.1 "buy" 1 reconcileEnvCovered attemptEnvSample
    marketEnvSample (Or.inr hcov)
  have h2 := c1_coverage_amended.2 tickStateMaxed rfl rfl (by decide)
  exact ⟨h.1, h.2, h2.1, h2.2⟩

end Ssss
